import Mathlib

/-!
# Verification of the makima turn orchestrator (`src/lib/thread/index.ts`)

A shallow embedding of `threadInfer` (the public turn-orchestration routine,
spec name `runTurn`) and of the knowledge-base tool adapter
`knowledgeBaseTool`, together with theorems settling the frozen claims about
them.

Modelling conventions:
* The database collaborators (`getThreadDetailsById`, `getAgentByName`,
  `getAgentById`, `getAgentTools`, `getMessagesByThreadId`) are external per
  the spec; they are gathered into an `Env` of pure lookup functions.
* The inference engine `universalInfer` is an external collaborator; it is a
  parameter producing the list of messages it delivers through `onMessage`
  (in delivery order) and its final output message.
* JavaScript truthiness on optional strings (`if (agentName)`,
  `if (threadDetails.default_agent_id)`) is modelled explicitly: an empty
  string is falsy.
* Side effects (the single inference call, the single persistence call) are
  recorded in an ordered event trace returned next to the result.
* JavaScript numbers are modelled as `Int`; every number this core inspects
  (the top-k parameter, list lengths) is integral.
-/

/-! ## Data model (spec section 3, `src/lib/knowledge/types.ts`) -/

/-- A JSON value; JSON numbers are modelled as `Int` (only integral values
appear in the behaviour under verification). A missing object key models a
JavaScript `undefined` field. -/
inductive Json
  | null
  | bool (b : Bool)
  | num (n : Int)
  | str (s : String)
  | arr (elems : List Json)
  | obj (fields : List (String × Json))

/-- Knowledge base reference data, from `src/lib/knowledge/types.ts`. -/
structure KnowledgeBase where
  name : String
  description : Option String
  embedding_model : String
  database_provider : String
deriving DecidableEq, Repr

/-- A search hit, from `SearchResult` in `src/lib/knowledge/types.ts`.
`metadata` is optional (`metadata?: Record<string, unknown>`); `similarity`
is a JS number the core never reads, modelled as `Int`. -/
structure SearchResult where
  id : String
  content : String
  model : String
  metadata : Option (List (String × Json))
  similarity : Int

/-- Modelled from the spec: agent-declared tool records are opaque external
definitions (their type `DbTool` lives in `src/lib/thread/tool`, which is not
among the provided sources); only their identity matters to this core. -/
structure DbTool where
  raw : String
deriving DecidableEq, Repr

/-- Modelled from the spec: the message variants of `src/lib/inference/types`
(not among the provided sources), a discriminated union over roles — system
instruction, the turn's user input, and the roles produced during inference
(assistant replies, tool calls, tool results). -/
inductive Message
  | system (content : String)
  | user (content : String)
  | assistant (content : String)
  | toolCall (name : String) (args : String)
  | toolResult (name : String) (content : String)
deriving DecidableEq, Repr

/-- Agent configuration (read-only for this core). `knowledgeBases` is
optional in the source (`agent.knowledgeBases || []`). -/
structure Agent where
  id : String
  name : String
  prompt : String
  primaryModel : String
  knowledgeBases : Option (List KnowledgeBase)
deriving DecidableEq, Repr

/-- Thread details as returned by `getThreadDetailsById`: an optional
`default_agent_id`. -/
structure ThreadDetails where
  default_agent_id : Option String
deriving DecidableEq, Repr

/-- The database collaborators consumed by the orchestrator (spec section 6),
as pure lookups. -/
structure Env where
  threads : String → Option ThreadDetails
  agentsByName : String → Option Agent
  agentsById : String → Option Agent
  agentTools : String → List DbTool
  messagesByThreadId : String → List Message

/-! ## Errors (spec section 7 taxonomy, mapped to the code's throw sites) -/

/-- The orchestrator's failures, one constructor per `throw` site in
`threadInfer`. -/
inductive TurnError
  | threadNotFound
  | agentNotFound (name : String)
  | defaultAgentNotFound
  | noAgentConfigured
deriving DecidableEq, Repr

/-- The exact `Error` message thrown by the source at each failure site. -/
def TurnError.message : TurnError → String
  | threadNotFound => "Thread not found"
  | agentNotFound name => "Agent \"" ++ name ++ "\" not found"
  | defaultAgentNotFound => "Default agent not found"
  | noAgentConfigured => "No agent specified and no default agent set for the thread"

/-- Spec taxonomy: the `NotFound` class (thread, named agent, or default
agent missing). -/
def TurnError.isNotFound : TurnError → Bool
  | threadNotFound => true
  | agentNotFound _ => true
  | defaultAgentNotFound => true
  | noAgentConfigured => false

/-- Spec taxonomy: the `ConfigurationError` class (no agent resolvable). -/
def TurnError.isConfigurationError : TurnError → Bool
  | noAgentConfigured => true
  | _ => false

/-! ## Agent resolution (`threadInfer`, step 1 and 2) -/

/-- The `agentName` branch of resolution: `getAgentByName` then the
`Agent "<name>" not found` throw. -/
def lookupAgentByName (env : Env) (name : String) : Except TurnError Agent :=
  match env.agentsByName name with
  | some agent => Except.ok agent
  | none => Except.error (TurnError.agentNotFound name)

/-- The `else if (threadDetails.default_agent_id)` branch: a present,
non-empty (truthy) id is looked up via `getAgentById`; a missing or empty
(falsy) id falls to the final `throw` ("No agent specified ..."). -/
def resolveDefault (env : Env) (td : ThreadDetails) : Except TurnError Agent :=
  match td.default_agent_id with
  | some id =>
      if id = "" then Except.error TurnError.noAgentConfigured
      else
        match env.agentsById id with
        | some agent => Except.ok agent
        | none => Except.error TurnError.defaultAgentNotFound
  | none => Except.error TurnError.noAgentConfigured

/-- Agent resolution: `if (agentName) {...} else if (...default_agent_id)
{...} else throw`. JS truthiness: a supplied but empty `agentName` is falsy
and falls through to the default branch. -/
def resolveAgent (env : Env) (td : ThreadDetails) (agentName : Option String) :
    Except TurnError Agent :=
  match agentName with
  | some name =>
      if name = "" then resolveDefault env td else lookupAgentByName env name
  | none => resolveDefault env td

/-! ## Context window and tool set (`threadInfer`, steps 3 to 5) -/

/-- JavaScript `array.slice(-n)` for `n > 0`: the last `min n l.length`
elements. -/
def sliceLast (l : List α) (n : Nat) : List α := l.drop (l.length - n)

/-- The context window of one turn:
`[systemMessage, ...previousMessages.slice(-9), newMessage].slice(-10)`. -/
def buildContext (prompt : String) (prev : List Message) (newMessage : Message) :
    List Message :=
  sliceLast (Message.system prompt :: (sliceLast prev 9 ++ [newMessage])) 10

/-- A tool handed to the inference engine: either a declared tool built from
a database record (`createToolFromDb`) or a knowledge-search tool built per
knowledge base (`knowledgeBaseTool`), as a tagged variant (spec section 9). -/
inductive ToolSpec
  | fromDb (record : DbTool)
  | knowledge (kb : KnowledgeBase)
deriving DecidableEq, Repr

/-- The deterministic knowledge-tool name `search-knowledge-base-<kb.name>`. -/
def ToolSpec.toolName : ToolSpec → String
  | fromDb record => record.raw
  | knowledge kb => "search-knowledge-base-" ++ kb.name

/-- The tool set of one turn:
`dbtools.map(createToolFromDb).concat(knowledgeBases.map(knowledgeBaseTool))`
with `knowledgeBases = agent.knowledgeBases || []`. -/
def buildTools (env : Env) (agent : Agent) : List ToolSpec :=
  (env.agentTools agent.id).map ToolSpec.fromDb
    ++ (agent.knowledgeBases.getD []).map ToolSpec.knowledge

/-- The arguments of the single `universalInfer` call: model, the context
window, and the tools — `tools.length > 0 ? tools : undefined`, so `none`
is the source's `undefined` ("no tools"). -/
structure InferCall where
  model : String
  messages : List Message
  tools : Option (List ToolSpec)
deriving DecidableEq, Repr

/-- `universalInfer({...})` assembled by `threadInfer`. -/
def buildInferCall (env : Env) (agent : Agent) (threadId : String)
    (newMessage : Message) : InferCall :=
  let tools := buildTools env agent
  { model := agent.primaryModel
    messages := buildContext agent.prompt (env.messagesByThreadId threadId) newMessage
    tools := if tools.length > 0 then some tools else none }

/-! ## The orchestrator -/

/-- An observable side effect of one turn, in order: the inference call and
the `addMessagesToThread` persistence call. -/
inductive Event
  | inferEv (call : InferCall)
  | persistEv (threadId : String) (messages : List Message)
deriving DecidableEq, Repr

/-- The inference engine collaborator (spec section 6): from the call it
receives, the list of messages it delivers through `onMessage` (in delivery
order, before returning) and its final output message. -/
def Engine : Type := InferCall → List Message × Message

/-- The turn orchestrator `threadInfer` of `src/lib/thread/index.ts`:
fetch the thread (throw `Thread not found` if absent), resolve the agent,
build the context window and the tool set, call the engine once while
accumulating `newMessages = [newMessage, ...callback messages]`, persist the
accumulated list, and return the engine's output. The returned trace lists
the side effects in program order; a thrown error aborts with an empty
trace, before any inference or persistence. -/
def threadInfer (env : Env) (engine : Engine) (threadId : String)
    (agentName : Option String) (newMessage : Message) :
    Except TurnError Message × List Event :=
  match env.threads threadId with
  | none => (Except.error TurnError.threadNotFound, [])
  | some threadDetails =>
      match resolveAgent env threadDetails agentName with
      | Except.error e => (Except.error e, [])
      | Except.ok agent =>
          let call := buildInferCall env agent threadId newMessage
          let produced := (engine call).1
          let result := (engine call).2
          let newMessages := newMessage :: produced
          (Except.ok result,
           [Event.inferEv call, Event.persistEv threadId newMessages])

/-! ## Trace observations -/

/-- The context window of the turn's inference call, read off the trace. -/
def contextSentToEngine (r : Except TurnError Message × List Event) :
    Option (List Message) :=
  match r.2 with
  | Event.inferEv call :: _ => some call.messages
  | _ => none

/-- The tools argument of the turn's inference call, read off the trace
(`some none` = the call happened with the `undefined` marker). -/
def toolsSentToEngine (r : Except TurnError Message × List Event) :
    Option (Option (List ToolSpec)) :=
  match r.2 with
  | Event.inferEv call :: _ => some call.tools
  | _ => none

/-- The persistence calls of the turn, read off the trace in order. -/
def persistCallsOf (r : Except TurnError Message × List Event) :
    List (String × List Message) :=
  r.2.filterMap fun ev =>
    match ev with
    | Event.persistEv threadId messages => some (threadId, messages)
    | _ => none

/-! ## Knowledge tool adapter (`knowledgeBaseTool`, bottom of
`src/lib/thread/index.ts`) -/

/-- The parsed parameters of a knowledge tool call, per `paramsSchema`:
`z.object({ query: z.string(), k: z.number().default(2) })`. -/
structure KBParams where
  query : String
  k : Int
deriving DecidableEq, Repr

/-- First-occurrence key lookup in a JSON object's field list (JavaScript
property access for the keys zod reads). -/
def lookupField (fields : List (String × Json)) (key : String) : Option Json :=
  (fields.find? fun f => f.1 == key).map fun f => f.2

/-- A knowledge-tool payload failure: the raw string is not JSON
(`JSON.parse` throws), or the parsed value fails `paramsSchema` (zod
throws). Both belong to the spec's `ValidationError` class. -/
inductive ToolError
  | invalidJson
  | invalidParams (field : String)
deriving DecidableEq, Repr

/-- `paramsSchema.parse`: the value must be an object; `query` must be a
string; `k` defaults to 2 when absent and must be a number when present. -/
def paramsSchemaParse : Json → Except ToolError KBParams
  | Json.obj fields =>
      (match lookupField fields "query", lookupField fields "k" with
       | some (Json.str q), none => Except.ok { query := q, k := 2 }
       | some (Json.str q), some (Json.num n) => Except.ok { query := q, k := n }
       | some (Json.str _), some _ => Except.error (ToolError.invalidParams "k")
       | _, _ => Except.error (ToolError.invalidParams "query"))
  | _ => Except.error (ToolError.invalidParams "payload")

/-- The raw payload handed to the tool's `parse` function: either a string
still to be `JSON.parse`d, or an already-structured value
(`typeof params === "string" ? JSON.parse(params) : params`). -/
inductive RawPayload
  | str (s : String)
  | obj (value : Json)

/-- The tool's `parse` function. `JSON.parse` is a platform builtin, passed
in as `jsonParse` (`none` = the string is not valid JSON and `JSON.parse`
throws a syntax error). -/
def kbToolParse (jsonParse : String → Option Json) :
    RawPayload → Except ToolError KBParams
  | RawPayload.str s =>
      match jsonParse s with
      | some value => paramsSchemaParse value
      | none => Except.error ToolError.invalidJson
  | RawPayload.obj value => paramsSchemaParse value

/-- One call into the `searchKnowledgeBase` collaborator, as the tool's
`function` issues it: `searchKnowledgeBase(kb.name, params.query, params.k)`. -/
structure SearchCall where
  kbName : String
  query : String
  k : Int
deriving DecidableEq, Repr

/-- The projection the tool applies to each search result before
serializing: `{ content: result.content, metadata: result.metadata }`.
`JSON.stringify` omits a key whose value is `undefined`, so an absent
`metadata` yields an object with the single key `content`. -/
def projectResult (r : SearchResult) : Json :=
  Json.obj (("content", Json.str r.content) ::
    (match r.metadata with
     | some m => [("metadata", Json.obj m)]
     | none => []))

/-- Escaping of one character inside a JSON string literal (the cases
`JSON.stringify` escapes among the characters this model can produce). -/
def jsonEscapeChar (c : Char) : String :=
  if c = '"' then "\\\""
  else if c = '\\' then "\\\\"
  else if c = '\n' then "\\n"
  else if c = '\r' then "\\r"
  else if c = '\t' then "\\t"
  else String.singleton c

/-- A JSON string literal. -/
def jsonQuote (s : String) : String :=
  "\"" ++ String.join (s.toList.map jsonEscapeChar) ++ "\""

mutual

/-- `JSON.stringify` on the modelled JSON values. -/
def serializeJson : Json → String
  | Json.null => "null"
  | Json.bool b => if b then "true" else "false"
  | Json.num n => toString n
  | Json.str s => jsonQuote s
  | Json.arr elems => "[" ++ serializeArr elems ++ "]"
  | Json.obj fields => "\x7b" ++ serializeObj fields ++ "\x7d"

/-- Comma-separated serialization of array elements. -/
def serializeArr : List Json → String
  | [] => ""
  | [x] => serializeJson x
  | x :: y :: rest => serializeJson x ++ "," ++ serializeArr (y :: rest)

/-- Comma-separated serialization of object fields. -/
def serializeObj : List (String × Json) → String
  | [] => ""
  | [f] => jsonQuote f.1 ++ ":" ++ serializeJson f.2
  | f :: g :: rest =>
      jsonQuote f.1 ++ ":" ++ serializeJson f.2 ++ "," ++ serializeObj (g :: rest)

end

/-- The tool's `function`: call the search collaborator with
`(kb.name, params.query, params.k)`, project each result to
`{content, metadata}`, and `JSON.stringify` the projected list. Returns the
serialized output next to the issued search calls. -/
def kbToolRun (search : String → String → Int → List SearchResult)
    (kb : KnowledgeBase) (p : KBParams) : String × List SearchCall :=
  let results := search kb.name p.query p.k
  (serializeJson (Json.arr (results.map projectResult)),
   [{ kbName := kb.name, query := p.query, k := p.k }])

/-- Modelled from the spec: the tool invocation pipeline of the `Tool` class
(`src/lib/inference/tool`, not among the provided sources) — parse/validate
the raw parameter payload, then run the tool's invocation function on the
validated parameters (spec section 4.3). A parse failure is returned before
any search call is issued. -/
def kbToolInvoke (jsonParse : String → Option Json)
    (search : String → String → Int → List SearchResult)
    (kb : KnowledgeBase) (payload : RawPayload) :
    Except ToolError String × List SearchCall :=
  match kbToolParse jsonParse payload with
  | Except.error e => (Except.error e, [])
  | Except.ok p =>
      let out := kbToolRun search kb p
      (Except.ok out.1, out.2)

/-- The keys of a serialized JSON object (the fields a tool-output element
exposes). -/
def Json.fieldNames : Json → List String
  | Json.obj fields => fields.map fun f => f.1
  | _ => []

/-! ## Concrete fixtures (used by the witnesses and counterexamples) -/

/-- A knowledge base named `docs`. -/
def kbDocs : KnowledgeBase :=
  { name := "docs", description := none, embedding_model := "e1",
    database_provider := "p1" }

/-- An agent with no tools and no knowledge bases. -/
def agentA : Agent :=
  { id := "A", name := "alpha", prompt := "You are helpful",
    primaryModel := "m1", knowledgeBases := none }

/-- A second agent, reachable only as a thread default. -/
def agentD : Agent :=
  { id := "D", name := "delta", prompt := "default prompt",
    primaryModel := "m1", knowledgeBases := none }

/-- An agent with one attached knowledge base. -/
def agentK : Agent :=
  { id := "K", name := "kappa", prompt := "kb prompt",
    primaryModel := "m1", knowledgeBases := some [kbDocs] }

/-- A store with one thread `T` (with the given details), the three fixture
agents, the given declared-tool records, and the given prior messages. -/
def mkEnv (td : Option ThreadDetails) (prior : List Message)
    (records : List DbTool) : Env :=
  { threads := fun t => if t = "T" then td else none
    agentsByName := fun n =>
      if n = "alpha" then some agentA
      else if n = "kappa" then some agentK else none
    agentsById := fun i =>
      if i = "A" then some agentA
      else if i = "D" then some agentD
      else if i = "K" then some agentK else none
    agentTools := fun _ => records
    messagesByThreadId := fun _ => prior }

/-- An engine that delivers one assistant message through the callback and
returns it. -/
def engine0 : Engine := fun _ =>
  ([Message.assistant "reply"], Message.assistant "reply")

/-- Two prior messages. -/
def priorTwo : List Message :=
  [Message.assistant "p1", Message.assistant "p2"]

/-- Exactly nine prior messages. -/
def priorNine : List Message :=
  [Message.assistant "p1", Message.assistant "p2", Message.assistant "p3",
   Message.assistant "p4", Message.assistant "p5", Message.assistant "p6",
   Message.assistant "p7", Message.assistant "p8", Message.assistant "p9"]

/-- Twelve prior messages. -/
def priorTwelve : List Message :=
  priorNine ++
    [Message.assistant "p10", Message.assistant "p11", Message.assistant "p12"]

/-- A `JSON.parse` model for which every string is malformed. -/
def jsonParseNone : String → Option Json := fun _ => none

/-- One concrete search hit, with metadata, a similarity score and an id. -/
def resultOne : SearchResult :=
  { id := "r1", content := "doc text", model := "e1",
    metadata := some [("source", Json.str "s1")], similarity := 9 }

/-- A search collaborator returning `resultOne` for every query. -/
def searchOne : String → String → Int → List SearchResult := fun _ _ _ =>
  [resultOne]

/-! ## Helper lemmas -/

theorem sliceLast_of_length_le (l : List α) (n : Nat) (h : l.length ≤ n) :
    sliceLast l n = l := by
  unfold sliceLast
  have hz : l.length - n = 0 := Nat.sub_eq_zero_of_le h
  rw [hz, List.drop_zero]

theorem length_sliceLast (l : List α) (n : Nat) :
    (sliceLast l n).length = min n l.length := by
  unfold sliceLast
  rw [List.length_drop]
  omega

theorem sliceLast_cons_of_length (a : α) (t : List α) (h : t.length = n) :
    sliceLast (a :: t) n = t := by
  unfold sliceLast
  have h1 : (a :: t).length - n = 1 := by
    simp [List.length_cons, h]
  rw [h1]
  rfl

theorem getLast?_append_singleton (l : List α) (a : α) :
    (l ++ [a]).getLast? = some a := by
  induction l with
  | nil => rfl
  | cons x xs ih =>
      cases xs with
      | nil => rfl
      | cons y ys =>
          rw [List.cons_append, List.cons_append, List.getLast?_cons_cons]
          rw [List.cons_append] at ih
          exact ih

/-- Characterization of a successful turn: when the thread exists and the
agent resolves, `threadInfer` performs exactly one inference call (built by
`buildInferCall`) followed by exactly one persistence call whose payload is
the new user message followed by the engine-delivered messages in order, and
returns the engine's output. -/
theorem threadInfer_ok (env : Env) (engine : Engine) (threadId : String)
    (agentName : Option String) (newMessage : Message)
    (td : ThreadDetails) (agent : Agent)
    (hTd : env.threads threadId = some td)
    (hAg : resolveAgent env td agentName = Except.ok agent) :
    threadInfer env engine threadId agentName newMessage =
      (Except.ok (engine (buildInferCall env agent threadId newMessage)).2,
       [Event.inferEv (buildInferCall env agent threadId newMessage),
        Event.persistEv threadId
          (newMessage :: (engine (buildInferCall env agent threadId newMessage)).1)]) := by
  simp only [threadInfer, hTd, hAg]

theorem buildContext_of_lt (prompt : String) (prev : List Message)
    (nm : Message) (h : prev.length < 9) :
    buildContext prompt prev nm = Message.system prompt :: (prev ++ [nm]) := by
  unfold buildContext
  rw [sliceLast_of_length_le prev 9 (by omega)]
  apply sliceLast_of_length_le
  simp only [List.length_cons, List.length_append, List.length_singleton, List.length_nil]
  omega

theorem buildContext_of_ge (prompt : String) (prev : List Message)
    (nm : Message) (h : 9 ≤ prev.length) :
    buildContext prompt prev nm = sliceLast prev 9 ++ [nm] := by
  unfold buildContext
  apply sliceLast_cons_of_length
  rw [List.length_append, length_sliceLast]
  simp only [List.length_singleton, List.length_nil]
  omega

/-! ## The claims -/

/-- C1: for every thread with more than 9 prior messages, the context window
built for the inference call is the two-stage truncation
`sliceLast (system :: (sliceLast prev 9 ++ [new])) 10`, which here equals
`sliceLast prev 9 ++ [new]` — the second truncation has dropped the system
message — so the window has at most 10 entries and its last element is the
new user message. -/
theorem more_than_nine_prior_window (env : Env) (engine : Engine)
    (threadId : String) (agentName : Option String) (newMessage : Message)
    (td : ThreadDetails) (agent : Agent)
    (hTd : env.threads threadId = some td)
    (hAg : resolveAgent env td agentName = Except.ok agent)
    (hLen : 9 < (env.messagesByThreadId threadId).length) :
    contextSentToEngine (threadInfer env engine threadId agentName newMessage) =
      some (sliceLast (env.messagesByThreadId threadId) 9 ++ [newMessage])
    ∧ buildContext agent.prompt (env.messagesByThreadId threadId) newMessage =
        sliceLast (env.messagesByThreadId threadId) 9 ++ [newMessage]
    ∧ (sliceLast (env.messagesByThreadId threadId) 9 ++ [newMessage]).length ≤ 10
    ∧ (sliceLast (env.messagesByThreadId threadId) 9 ++ [newMessage]).getLast? =
        some newMessage := by
  have hctx := buildContext_of_ge agent.prompt (env.messagesByThreadId threadId)
    newMessage (by omega)
  refine ⟨?_, hctx, ?_, getLast?_append_singleton _ _⟩
  · rw [threadInfer_ok env engine threadId agentName newMessage td agent hTd hAg]
    simp only [contextSentToEngine, buildInferCall]
    rw [hctx]
  · rw [List.length_append, length_sliceLast]
    simp only [List.length_singleton, List.length_nil]
    omega

/-- C1 witness: with twelve prior messages the engine receives the last nine
of them followed by the new user message, and nothing else. -/
theorem more_than_nine_prior_window_witness :
    contextSentToEngine (threadInfer (mkEnv (some ⟨some "A"⟩) priorTwelve [])
        engine0 "T" none (Message.user "hi")) =
      some [Message.assistant "p4", Message.assistant "p5",
        Message.assistant "p6", Message.assistant "p7", Message.assistant "p8",
        Message.assistant "p9", Message.assistant "p10",
        Message.assistant "p11", Message.assistant "p12", Message.user "hi"] :=
  (more_than_nine_prior_window (mkEnv (some ⟨some "A"⟩) priorTwelve []) engine0
    "T" none (Message.user "hi") ⟨some "A"⟩ agentA rfl rfl (by decide)).1

/-- C2: for every thread with a resolvable agent and fewer than 9 prior
messages, the context window passed to the inference engine is exactly
`[system(agent.prompt), ...all prior messages in order, new user message]`,
with nothing dropped. -/
theorem fewer_than_nine_prior_window (env : Env) (engine : Engine)
    (threadId : String) (agentName : Option String) (newMessage : Message)
    (td : ThreadDetails) (agent : Agent)
    (hTd : env.threads threadId = some td)
    (hAg : resolveAgent env td agentName = Except.ok agent)
    (hLen : (env.messagesByThreadId threadId).length < 9) :
    contextSentToEngine (threadInfer env engine threadId agentName newMessage) =
      some (Message.system agent.prompt ::
        (env.messagesByThreadId threadId ++ [newMessage])) := by
  rw [threadInfer_ok env engine threadId agentName newMessage td agent hTd hAg]
  simp only [contextSentToEngine, buildInferCall]
  rw [buildContext_of_lt agent.prompt (env.messagesByThreadId threadId)
    newMessage hLen]

/-- C2 witness: with two prior messages the full window
`[system, p1, p2, new]` reaches the engine. -/
theorem fewer_than_nine_prior_window_witness :
    contextSentToEngine (threadInfer (mkEnv (some ⟨some "A"⟩) priorTwo [])
        engine0 "T" none (Message.user "hi")) =
      some [Message.system "You are helpful", Message.assistant "p1",
        Message.assistant "p2", Message.user "hi"] :=
  fewer_than_nine_prior_window (mkEnv (some ⟨some "A"⟩) priorTwo []) engine0
    "T" none (Message.user "hi") ⟨some "A"⟩ agentA rfl rfl (by decide)

/-- C10: with exactly 9 prior messages the assembled list
`[system, ...9 prior, new]` has 11 entries, so the final `slice(-10)`
already drops the system message: the window is exactly the 9 prior
messages followed by the new user message. -/
theorem exactly_nine_prior_window (env : Env) (engine : Engine)
    (threadId : String) (agentName : Option String) (newMessage : Message)
    (td : ThreadDetails) (agent : Agent)
    (hTd : env.threads threadId = some td)
    (hAg : resolveAgent env td agentName = Except.ok agent)
    (hLen : (env.messagesByThreadId threadId).length = 9) :
    contextSentToEngine (threadInfer env engine threadId agentName newMessage) =
      some (env.messagesByThreadId threadId ++ [newMessage]) := by
  rw [threadInfer_ok env engine threadId agentName newMessage td agent hTd hAg]
  simp only [contextSentToEngine, buildInferCall]
  rw [buildContext_of_ge agent.prompt (env.messagesByThreadId threadId)
    newMessage (by omega)]
  rw [sliceLast_of_length_le _ _ (by omega)]

/-- C10 witness: with exactly nine prior messages the engine receives
`[p1..p9, new]` and no system message. -/
theorem exactly_nine_prior_window_witness :
    contextSentToEngine (threadInfer (mkEnv (some ⟨some "A"⟩) priorNine [])
        engine0 "T" none (Message.user "hi")) =
      some [Message.assistant "p1", Message.assistant "p2",
        Message.assistant "p3", Message.assistant "p4", Message.assistant "p5",
        Message.assistant "p6", Message.assistant "p7", Message.assistant "p8",
        Message.assistant "p9", Message.user "hi"] :=
  exactly_nine_prior_window (mkEnv (some ⟨some "A"⟩) priorNine []) engine0
    "T" none (Message.user "hi") ⟨some "A"⟩ agentA rfl rfl (by decide)

/-- C3: on every successful turn the thread log receives, through exactly
one persistence call issued after the inference call, exactly the new user
message followed by the messages the engine delivered through `onMessage`,
in delivery order; the trace equation lists the inference event strictly
before the single persistence event. -/
theorem persisted_messages_are_user_then_callback (env : Env) (engine : Engine)
    (threadId : String) (agentName : Option String) (newMessage : Message)
    (td : ThreadDetails) (agent : Agent)
    (hTd : env.threads threadId = some td)
    (hAg : resolveAgent env td agentName = Except.ok agent) :
    threadInfer env engine threadId agentName newMessage =
      (Except.ok (engine (buildInferCall env agent threadId newMessage)).2,
       [Event.inferEv (buildInferCall env agent threadId newMessage),
        Event.persistEv threadId
          (newMessage :: (engine (buildInferCall env agent threadId newMessage)).1)])
    ∧ persistCallsOf (threadInfer env engine threadId agentName newMessage) =
        [(threadId,
          newMessage :: (engine (buildInferCall env agent threadId newMessage)).1)] := by
  have h := threadInfer_ok env engine threadId agentName newMessage td agent hTd hAg
  refine ⟨h, ?_⟩
  rw [h]
  rfl

/-- C3 witness: with `engine0` delivering one assistant reply, the turn
issues exactly one persistence call, with `[user "hi", assistant "reply"]`. -/
theorem persisted_messages_are_user_then_callback_witness :
    persistCallsOf (threadInfer (mkEnv (some ⟨some "A"⟩) [] []) engine0 "T"
        none (Message.user "hi")) =
      [("T", [Message.user "hi", Message.assistant "reply"])] :=
  (persisted_messages_are_user_then_callback (mkEnv (some ⟨some "A"⟩) [] [])
    engine0 "T" none (Message.user "hi") ⟨some "A"⟩ agentA rfl rfl).2

/-- C4 counterexample: the claim fails for the supplied-but-empty agent
name. With `agentName = some ""` and a default agent id `"D"` both present,
resolution returns the default agent `agentD` — the default IS consulted —
even though the by-name lookup would have found no agent named `""`. -/
theorem empty_agent_name_uses_default_counterexample :
    (mkEnv (some ⟨some "D"⟩) [] []).agentsByName "" = none
    ∧ resolveAgent (mkEnv (some ⟨some "D"⟩) [] []) ⟨some "D"⟩ (some "") =
        Except.ok agentD
    ∧ (mkEnv (some ⟨some "D"⟩) [] []).agentsById "D" = some agentD
    ∧ resolveAgent (mkEnv (some ⟨some "D"⟩) [] []) ⟨some "D"⟩ (some "") ≠
        lookupAgentByName (mkEnv (some ⟨some "D"⟩) [] []) "" := by
  refine ⟨rfl, rfl, rfl, ?_⟩
  have hby : lookupAgentByName (mkEnv (some ⟨some "D"⟩) [] []) "" =
      Except.error (TurnError.agentNotFound "") := rfl
  rw [hby]
  intro hcontra
  exact Except.noConfusion hcontra

/-- C4 (amended): for every turn where a supplied agentName is non-empty
(JS-truthy) and a thread default_agent_id is present, resolution is exactly
the by-name lookup, and the thread's default_agent_id is not consulted: the
outcome is the same whatever the thread's details are. -/
theorem nonempty_agent_name_takes_precedence (env : Env)
    (td td2 : ThreadDetails) (name : String) (h : name ≠ "") :
    resolveAgent env td (some name) = lookupAgentByName env name
    ∧ resolveAgent env td (some name) = resolveAgent env td2 (some name) := by
  constructor <;> simp [resolveAgent, h]

/-- C4 witness: with agent name `alpha` supplied, resolution ignores the
default id `"D"` and equals the by-name lookup. -/
theorem nonempty_agent_name_takes_precedence_witness :
    resolveAgent (mkEnv (some ⟨some "D"⟩) [] []) ⟨some "D"⟩ (some "alpha") =
        lookupAgentByName (mkEnv (some ⟨some "D"⟩) [] []) "alpha"
    ∧ resolveAgent (mkEnv (some ⟨some "D"⟩) [] []) ⟨some "D"⟩ (some "alpha") =
        resolveAgent (mkEnv (some ⟨some "D"⟩) [] []) ⟨none⟩ (some "alpha") :=
  nonempty_agent_name_takes_precedence (mkEnv (some ⟨some "D"⟩) [] [])
    ⟨some "D"⟩ ⟨none⟩ "alpha" (by decide)

/-- C5: a turn on a threadId for which no thread exists fails with the
NotFound-class error `Thread not found`, with an empty side-effect trace: no
inference call and no persistence call, so the thread store is untouched. -/
theorem missing_thread_fails_not_found (env : Env) (engine : Engine)
    (threadId : String) (agentName : Option String) (newMessage : Message)
    (h : env.threads threadId = none) :
    threadInfer env engine threadId agentName newMessage =
      (Except.error TurnError.threadNotFound, [])
    ∧ TurnError.threadNotFound.isNotFound = true
    ∧ persistCallsOf (threadInfer env engine threadId agentName newMessage) =
        [] := by
  have hrun : threadInfer env engine threadId agentName newMessage =
      (Except.error TurnError.threadNotFound, []) := by
    simp only [threadInfer, h]
  refine ⟨hrun, rfl, ?_⟩
  rw [hrun]
  rfl

/-- C5 witness: thread `X` does not exist in the fixture store; the turn
fails with `Thread not found` and performs no persistence call. -/
theorem missing_thread_fails_not_found_witness :
    threadInfer (mkEnv (some ⟨some "A"⟩) [] []) engine0 "X" none
        (Message.user "hi") =
      (Except.error TurnError.threadNotFound, [])
    ∧ TurnError.threadNotFound.isNotFound = true
    ∧ persistCallsOf (threadInfer (mkEnv (some ⟨some "A"⟩) [] []) engine0 "X"
        none (Message.user "hi")) = [] :=
  missing_thread_fails_not_found (mkEnv (some ⟨some "A"⟩) [] []) engine0 "X"
    none (Message.user "hi") rfl

/-- C6: a turn with no agentName supplied on a thread with no
default_agent_id fails with the ConfigurationError-class error whose message
is `No agent specified and no default agent set for the thread`, with an
empty side-effect trace: no inference and no persistence occur. -/
theorem no_agent_fails_configuration (env : Env) (engine : Engine)
    (threadId : String) (newMessage : Message) (td : ThreadDetails)
    (hTd : env.threads threadId = some td)
    (hDef : td.default_agent_id = none) :
    threadInfer env engine threadId none newMessage =
      (Except.error TurnError.noAgentConfigured, [])
    ∧ TurnError.noAgentConfigured.isConfigurationError = true
    ∧ TurnError.noAgentConfigured.message =
        "No agent specified and no default agent set for the thread" := by
  refine ⟨?_, rfl, rfl⟩
  have hres : resolveAgent env td none = Except.error TurnError.noAgentConfigured := by
    simp [resolveAgent, resolveDefault, hDef]
  simp only [threadInfer, hTd, hres]

/-- C6 witness: thread `T` with no default agent and no supplied name fails
with the configuration error and an empty trace. -/
theorem no_agent_fails_configuration_witness :
    threadInfer (mkEnv (some ⟨none⟩) [] []) engine0 "T" none
        (Message.user "hi") =
      (Except.error TurnError.noAgentConfigured, [])
    ∧ TurnError.noAgentConfigured.isConfigurationError = true
    ∧ TurnError.noAgentConfigured.message =
        "No agent specified and no default agent set for the thread" :=
  no_agent_fails_configuration (mkEnv (some ⟨none⟩) [] []) engine0 "T"
    (Message.user "hi") ⟨none⟩ rfl rfl

/-- C9: the tool set is empty exactly when the agent has zero declared tool
records and zero knowledge bases; in that case the engine receives the
absence marker (`undefined`, modelled `none`) rather than an empty
collection, and otherwise it receives the (non-empty) concatenation of the
declared tools and the knowledge tools. -/
theorem tools_absence_marker (env : Env) (engine : Engine)
    (threadId : String) (agentName : Option String) (newMessage : Message)
    (td : ThreadDetails) (agent : Agent)
    (hTd : env.threads threadId = some td)
    (hAg : resolveAgent env td agentName = Except.ok agent) :
    (buildTools env agent = [] ↔
       env.agentTools agent.id = [] ∧ agent.knowledgeBases.getD [] = [])
    ∧ (buildTools env agent = [] →
       toolsSentToEngine (threadInfer env engine threadId agentName newMessage) =
         some none)
    ∧ (buildTools env agent ≠ [] →
       toolsSentToEngine (threadInfer env engine threadId agentName newMessage) =
         some (some (buildTools env agent))) := by
  have hrun := threadInfer_ok env engine threadId agentName newMessage td agent hTd hAg
  refine ⟨?_, ?_, ?_⟩
  · simp [buildTools, List.append_eq_nil, List.map_eq_nil_iff]
  · intro h
    rw [hrun]
    simp only [toolsSentToEngine, buildInferCall, h]
    rfl
  · intro h
    have hpos : 0 < (buildTools env agent).length := List.length_pos.mpr h
    rw [hrun]
    simp only [toolsSentToEngine, buildInferCall]
    rw [if_pos hpos]

/-- C9 witness: agent `A` (no tools, no knowledge bases) yields the absence
marker; agent `K` (one knowledge base) yields the singleton knowledge-tool
list. -/
theorem tools_absence_marker_witness :
    toolsSentToEngine (threadInfer (mkEnv (some ⟨some "A"⟩) [] []) engine0 "T"
        none (Message.user "hi")) = some none
    ∧ toolsSentToEngine (threadInfer (mkEnv (some ⟨some "K"⟩) [] []) engine0
        "T" none (Message.user "hi")) =
      some (some [ToolSpec.knowledge kbDocs]) :=
  ⟨(tools_absence_marker (mkEnv (some ⟨some "A"⟩) [] []) engine0 "T" none
      (Message.user "hi") ⟨some "A"⟩ agentA rfl rfl).2.1 rfl,
   (tools_absence_marker (mkEnv (some ⟨some "K"⟩) [] []) engine0 "T" none
      (Message.user "hi") ⟨some "K"⟩ agentK rfl rfl).2.2 (by decide)⟩

/-- The keys a projected result exposes: always `content`, plus `metadata`
exactly when the search result carries metadata (`JSON.stringify` drops the
`undefined` value of an absent `metadata`). -/
theorem fieldNames_projectResult (r : SearchResult) :
    (projectResult r).fieldNames =
      "content" ::
        (match r.metadata with | some _ => ["metadata"] | none => []) := by
  rcases hm : r.metadata with - | m <;>
    simp [projectResult, Json.fieldNames, hm]

/-- C7: a knowledge tool invoked with a payload whose object has a string
`query` and no `k` issues exactly one search with `k = 2`; an unparsable
JSON string payload and a payload with a non-string `query` both fail at the
parse step with the corresponding validation-class error; and every parse
failure is returned with an empty search-call list, i.e. before the search
collaborator is reached. -/
theorem knowledge_tool_params_validation (jsonParse : String → Option Json)
    (search : String → String → Int → List SearchResult) (kb : KnowledgeBase) :
    (∀ fields q, lookupField fields "query" = some (Json.str q) →
        lookupField fields "k" = none →
        kbToolInvoke jsonParse search kb (RawPayload.obj (Json.obj fields)) =
          (Except.ok (serializeJson
              (Json.arr ((search kb.name q 2).map projectResult))),
           [{ kbName := kb.name, query := q, k := 2 }]))
    ∧ (∀ s, jsonParse s = none →
        kbToolInvoke jsonParse search kb (RawPayload.str s) =
          (Except.error ToolError.invalidJson, []))
    ∧ (∀ fields j, lookupField fields "query" = some j →
        (∀ q, j ≠ Json.str q) →
        kbToolInvoke jsonParse search kb (RawPayload.obj (Json.obj fields)) =
          (Except.error (ToolError.invalidParams "query"), []))
    ∧ (∀ payload e, kbToolParse jsonParse payload = Except.error e →
        kbToolInvoke jsonParse search kb payload = (Except.error e, [])) := by
  refine ⟨?_, ?_, ?_, ?_⟩
  · intro fields q hq hk
    simp [kbToolInvoke, kbToolParse, paramsSchemaParse, hq, hk, kbToolRun]
  · intro s hs
    simp [kbToolInvoke, kbToolParse, hs]
  · intro fields j hq hnot
    cases j with
    | str s => exact absurd rfl (hnot s)
    | null => simp [kbToolInvoke, kbToolParse, paramsSchemaParse, hq]
    | bool b => simp [kbToolInvoke, kbToolParse, paramsSchemaParse, hq]
    | num n => simp [kbToolInvoke, kbToolParse, paramsSchemaParse, hq]
    | arr elems => simp [kbToolInvoke, kbToolParse, paramsSchemaParse, hq]
    | obj fs => simp [kbToolInvoke, kbToolParse, paramsSchemaParse, hq]
  · intro payload e he
    simp [kbToolInvoke, he]

/-- C7 witness: a payload omitting `k` triggers one search with `k = 2`; a
malformed JSON string fails with the JSON validation error and zero search
calls. -/
theorem knowledge_tool_params_validation_witness :
    kbToolInvoke jsonParseNone searchOne kbDocs
        (RawPayload.obj (Json.obj [("query", Json.str "hello")])) =
      (Except.ok (serializeJson
          (Json.arr ((searchOne "docs" "hello" 2).map projectResult))),
       [{ kbName := "docs", query := "hello", k := 2 }])
    ∧ kbToolInvoke jsonParseNone searchOne kbDocs (RawPayload.str "oops") =
      (Except.error ToolError.invalidJson, []) :=
  ⟨(knowledge_tool_params_validation jsonParseNone searchOne kbDocs).1
      [("query", Json.str "hello")] "hello" rfl rfl,
   (knowledge_tool_params_validation jsonParseNone searchOne kbDocs).2.1
      "oops" rfl⟩

/-- C8: for every result sequence the collaborator returns, the tool's
output is the serialization of the projected list, element-for-element and
in order; each projected element exposes the key `content` (and `metadata`
exactly when the result carries it), and never a `similarity` or `id`
key. -/
theorem knowledge_tool_output_projection
    (search : String → String → Int → List SearchResult)
    (kb : KnowledgeBase) (p : KBParams) :
    (kbToolRun search kb p).1 =
      serializeJson (Json.arr ((search kb.name p.query p.k).map projectResult))
    ∧ ∀ r ∈ search kb.name p.query p.k,
        (projectResult r).fieldNames =
          "content" ::
            (match r.metadata with | some _ => ["metadata"] | none => [])
        ∧ "similarity" ∉ (projectResult r).fieldNames
        ∧ "id" ∉ (projectResult r).fieldNames := by
  refine ⟨rfl, ?_⟩
  intro r _
  refine ⟨fieldNames_projectResult r, ?_, ?_⟩
  · rw [fieldNames_projectResult r]
    cases hm : r.metadata
    · decide
    · show "similarity" ∉ ["content", "metadata"]
      decide
  · rw [fieldNames_projectResult r]
    cases hm : r.metadata
    · decide
    · show "id" ∉ ["content", "metadata"]
      decide

/-- C8 witness: the projected fixture result exposes exactly `content` and
`metadata`, and neither `similarity` nor `id`, and the tool's output is the
serialized projected list. -/
theorem knowledge_tool_output_projection_witness :
    (kbToolRun searchOne kbDocs { query := "q", k := 2 }).1 =
      serializeJson (Json.arr ((searchOne "docs" "q" 2).map projectResult))
    ∧ ((projectResult resultOne).fieldNames = ["content", "metadata"]
       ∧ "similarity" ∉ (projectResult resultOne).fieldNames
       ∧ "id" ∉ (projectResult resultOne).fieldNames) :=
  ⟨(knowledge_tool_output_projection searchOne kbDocs
      { query := "q", k := 2 }).1,
   (knowledge_tool_output_projection searchOne kbDocs
      { query := "q", k := 2 }).2 resultOne (List.mem_singleton.mpr rfl)⟩
